import Mathlib

/-! Verification of the FireAPI repository.

Shallow embedding of the three Python source files:

* `app.py` — the Flask HTTP facade with stub prediction endpoints.
* `example_usage.py` — `EstimateGenerator`: natural-language classifier
  (`parse_natural_language`) and estimate generation (`generate_estimate`).
* `validate_template.py` — template structure validation
  (`validate_template_structure`, `validate_phases`) and
  `calculate_sample_estimate`.

Numeric values (labor hours, costs, multipliers) are modelled as rationals;
the implementation-defined Python `hash` is modelled as an arbitrary function
`String → ℤ`; wall-clock timestamps are modelled as an arbitrary string
parameter.  Python dictionaries holding template data are modelled as
association lists (`List (String × _)`); `dict.get(k, d)` becomes
`(List.lookup k _).getD d` and field access with a per-field default becomes
an `Option` field read with `.getD`.
-/

set_option autoImplicit false

namespace FireAPI

/-! Section: Python string helpers -/

/-- The Python substring test (needle in hay) on lists of characters. -/
def listContains (hay needle : List Char) : Bool :=
  match hay with
  | [] => needle.isEmpty
  | _ :: t => needle.isPrefixOf hay || listContains t needle

/-- The Python method str.lower (ASCII range, as exercised by the sources). -/
def pyLower (s : String) : String :=
  ⟨s.toList.map Char.toLower⟩

/-- Helper for `pyTitle`: the boolean records whether the previous character
was alphabetic. -/
def pyTitleGo : Bool → List Char → List Char
  | _, [] => []
  | prevAlpha, c :: t =>
    if c.isAlpha then
      (if prevAlpha then c.toLower else c.toUpper) :: pyTitleGo true t
    else
      c :: pyTitleGo false t

/-- The Python method str.title (ASCII range): each alphabetic character is
uppercased when it follows a non-alphabetic character and lowercased
otherwise. -/
def pyTitle (s : String) : String :=
  ⟨pyTitleGo false s.toList⟩

/-! Section: `example_usage.py` — `parse_natural_language` (lines 18–55) -/

/-- The triple of categorical parameters produced by the classifier. -/
structure ParsedParams where
  kitchen_size : String
  scope : String
  quality_tier : String
  deriving DecidableEq, Repr

/-- Evaluates any(word in description for word in words) over an already
lowercased description. -/
def anyKeyword (description : List Char) (words : List String) : Bool :=
  words.any (fun w => listContains description w.toList)

/-- Embeds `EstimateGenerator.parse_natural_language` (`example_usage.py` 18–55):
lowercase the description, then pick size, scope and quality by ordered
keyword containment with a default fallback per axis. -/
def parse_natural_language (description : String) : ParsedParams :=
  let d := (pyLower description).toList
  let kitchen_size :=
    if anyKeyword d ["small", "galley", "tiny"] then "small"
    else if anyKeyword d ["large", "big", "spacious"] then "large"
    else if anyKeyword d ["xl", "luxury", "massive"] then "xl"
    else "medium"
  let scope :=
    if anyKeyword d ["cosmetic", "refresh", "update", "paint", "reface"] then "cosmetic"
    else if anyKeyword d ["gut", "complete", "full", "tear down", "rebuild"] then "gut_renovation"
    else "standard"
  let quality :=
    if anyKeyword d ["budget", "cheap", "basic", "affordable"] then "budget"
    else if anyKeyword d ["luxury", "high-end", "premium", "custom"] then "luxury"
    else if anyKeyword d ["high", "nice", "good quality"] then "high_end"
    else "mid_range"
  { kitchen_size := kitchen_size, scope := scope, quality_tier := quality }

/-- All keywords the classifier recognizes, across the three axes. -/
def classifierKeywords : List String :=
  ["small", "galley", "tiny", "large", "big", "spacious", "xl", "luxury", "massive",
   "cosmetic", "refresh", "update", "paint", "reface",
   "gut", "complete", "full", "tear down", "rebuild",
   "budget", "cheap", "basic", "affordable",
   "high-end", "premium", "custom", "high", "nice", "good quality"]

/-! Section: `app.py` — prediction processors and routes

here `hash` is the implementation-defined Python string hash, passed in as an
arbitrary `pyHash : String → ℤ`; `ts` stands for the
`datetime.datetime.now().isoformat()` value produced at response time. -/

/-- The JSON object returned by `process_sports_prediction` (`app.py` 164–185). -/
structure SportsPrediction where
  prediction : String
  confidence : ℤ
  sport : String
  matchup : String
  factors : List String
  betting_recommendations : List String
  timestamp : String
  service : String
  deriving DecidableEq, Repr

/-- Embeds `process_sports_prediction` (`app.py` 164–185). -/
def process_sports_prediction (pyHash : String → ℤ) (sport team1 team2 ts : String) :
    SportsPrediction :=
  let confidence := 75 + (pyHash (team1 ++ team2)) % 20
  { prediction := pyTitle team1 ++ " wins by 3-7 points"
    confidence := confidence
    sport := sport
    matchup := pyTitle team1 ++ " vs " ++ pyTitle team2
    factors := ["Home field advantage analysis", "Recent performance trends",
                "Injury report impact assessment", "Historical head-to-head data"]
    betting_recommendations := ["Take " ++ pyTitle team1 ++ " -3 to -7",
                                "Consider Over on total points"]
    timestamp := ts
    service := "FireAPI Sports Intelligence v2.0" }

/-- The JSON object returned by `process_crypto_prediction` (`app.py` 187–209). -/
structure CryptoPrediction where
  coin : String
  timeframe : String
  prediction : String
  price_target : String
  confidence : ℤ
  factors : List String
  timestamp : String
  service : String
  deriving DecidableEq, Repr

/-- The `price_targets` table of `process_crypto_prediction` (`app.py` 191–194). -/
def price_targets : List (String × List (String × String)) :=
  [("bitcoin", [("1h", "$43,200"), ("6h", "$44,500"), ("24h", "$45,000"), ("48h", "$46,800")]),
   ("ethereum", [("1h", "$2,650"), ("6h", "$2,720"), ("24h", "$2,800"), ("48h", "$2,900")])]

/-- Embeds `process_crypto_prediction` (`app.py` 187–209). -/
def process_crypto_prediction (pyHash : String → ℤ) (coin timeframe ts : String) :
    CryptoPrediction :=
  let confidence := 70 + (pyHash (coin ++ timeframe)) % 25
  { coin := coin
    timeframe := timeframe
    prediction := if confidence > 75 then "bullish" else "neutral"
    price_target := (((price_targets.lookup coin).getD []).lookup timeframe).getD "TBD"
    confidence := confidence
    factors := ["Technical indicator analysis", "Market sentiment evaluation",
                "Volume and liquidity assessment"]
    timestamp := ts
    service := "FireAPI Crypto Intelligence v2.0" }

/-- The JSON body of the `/sports/predict` request; absent keys are `none`
(`data.get` supplies the defaults inside the route). -/
structure SportsRequest where
  sport : Option String
  team1 : Option String
  team2 : Option String
  app_id : Option String
  user_id : Option String
  deriving DecidableEq, Repr

/-- Body of a `/sports/predict` response: either the error object or the
prediction object. -/
inductive SportsBody where
  | errorBody (message : String)
  | predictionBody (p : SportsPrediction)
  deriving DecidableEq, Repr

/-- Embeds the `sports_predict` route (`app.py` 97–120): read the fields
with their defaults, lowercase the teams, return 400 when either team is
falsy, otherwise the fabricated prediction with status 200 (the Flask default
status for a dict return). -/
def sports_predict (pyHash : String → ℤ) (ts : String) (req : SportsRequest) :
    SportsBody × Nat :=
  let sport := req.sport.getD "nfl"
  let team1 := pyLower (req.team1.getD "")
  let team2 := pyLower (req.team2.getD "")
  if team1 = "" ∨ team2 = "" then
    (.errorBody "Both team1 and team2 are required", 400)
  else
    (.predictionBody (process_sports_prediction pyHash sport team1 team2 ts), 200)

/-! Section: Response key sets

The keys of the JSON dict literal each route returns, in source order.
Only `GET /services` (`app.py` 83–95) returns a dict without a
`"timestamp"` key. -/

/-- Keys of the `GET /` response dict (`app.py` 51–81). -/
def home_response_fields : List String :=
  ["name", "version", "description", "architecture", "ecosystem", "endpoints",
   "communication_flow", "documentation", "timestamp"]

/-- Keys of the `GET /services` response dict (`app.py` 83–95). -/
def services_response_fields : List String :=
  ["fire_ecosystem", "total_services", "central_hub", "architecture", "service_status"]

/-- Keys of the `GET /health` response dict (`app.py` 143–162). -/
def health_response_fields : List String :=
  ["fireapi_status", "timestamp", "central_hub", "version", "ecosystem",
   "intelligence_modules"]

/-- Keys of the `process_sports_prediction` dict (`app.py` 168–185), the body
of a successful `POST /sports/predict`. -/
def sports_response_fields : List String :=
  ["prediction", "confidence", "sport", "matchup", "factors",
   "betting_recommendations", "timestamp", "service"]

/-- Keys of the `process_crypto_prediction` dict (`app.py` 196–209), the body
of a successful `POST /crypto/predict`. -/
def crypto_response_fields : List String :=
  ["coin", "timeframe", "prediction", "price_target", "confidence", "factors",
   "timestamp", "service"]

/-! Section: Template data model

Shape of the trade-library JSON consumed by `example_usage.py` and
`validate_template.py`.  Fields read through `dict.get(k, default)` in the
sources are `Option`s; the typical labor rate per category is modelled as a total
map from rate category to the `typical` rate (the sources index it directly
and only on templates where the lookup succeeds). -/

/-- A task entry of a phase; labor_hours and hourly_rate_category are read
via .get with defaults 0 and skilled. -/
structure Task where
  task : String
  labor_hours : Option ℚ
  hourly_rate_category : Option String
  deriving DecidableEq, Repr

/-- A material entry of a phase, with `quantity`, `unit_cost_base`,
`waste_factor` and `unit` all read via `.get` with defaults. -/
structure Material where
  item : String
  quantity : Option ℚ
  unit : Option String
  unit_cost_base : Option ℚ
  waste_factor : Option ℚ
  deriving DecidableEq, Repr

/-- A phase of the template. -/
structure Phase where
  phase_id : String
  phase_name : String
  sequence : ℤ
  tasks : List Task
  materials : List Material
  deriving DecidableEq, Repr

/-- The typical labor rate per rate category, modelled as a total map. -/
structure LaborRates where
  typical : String → ℚ

/-- A `sizing_factors.kitchen_size` entry. -/
structure SizeFactor where
  complexity_multiplier : Option ℚ
  deriving DecidableEq, Repr

/-- The `phases_included` value of a scope factor: either the string literal
all or a list of phase identifiers. -/
inductive PhasesIncluded where
  | all
  | subset (ids : List String)
  deriving DecidableEq, Repr

/-- A `sizing_factors.renovation_scope` entry;
reading phases_included via .get defaults an absent key to all. -/
structure ScopeFactor where
  complexity_multiplier : Option ℚ
  phases_included : Option PhasesIncluded
  deriving DecidableEq, Repr

/-- A `quality_tiers` entry (indexed directly by `generate_estimate`). -/
structure QualityTier where
  material_multiplier : ℚ
  deriving DecidableEq, Repr

/-- The template document, with the dict-valued members as association
lists. -/
structure Template where
  phases : List Phase
  labor_rates : LaborRates
  kitchen_size : List (String × SizeFactor)
  renovation_scope : List (String × ScopeFactor)
  quality_tiers : List (String × QualityTier)

/-! Section: Phase selection (`example_usage.py` 75–80, `validate_template.py` 75–80)

Both entry points contain the same lines; each gets its own embedding so it
can be checked against its own source location. -/

/-- Phase selection of `generate_estimate` (`example_usage.py` 75–80). -/
def includedPhasesGen (phases : List Phase) (scope_factor : ScopeFactor) : List Phase :=
  match scope_factor.phases_included.getD .all with
  | .all => phases
  | .subset ids => phases.filter (fun p => ids.contains p.phase_id)

/-- Phase selection of `calculate_sample_estimate`
(`validate_template.py` 75–80). -/
def includedPhasesSample (phases : List Phase) (scope_factor : ScopeFactor) : List Phase :=
  match scope_factor.phases_included.getD .all with
  | .all => phases
  | .subset ids => phases.filter (fun p => ids.contains p.phase_id)

/-! Section: `validate_template.py` — `calculate_sample_estimate` (lines 64–140) -/

/-- The totals record both entry points return. -/
structure EstimateTotals where
  labor_hours : ℚ
  labor_cost : ℚ
  material_cost : ℚ
  total_cost : ℚ
  deriving DecidableEq, Repr

/-- The cost contribution of one material:
`quantity * unit_cost * (1 + waste_factor)` with the `.get` defaults
(`validate_template.py` 100–105, `example_usage.py` 145–158). -/
def materialCost (m : Material) : ℚ :=
  m.quantity.getD 0 * m.unit_cost_base.getD 0 * (1 + m.waste_factor.getD 0)

/-- Embeds `calculate_sample_estimate` (`validate_template.py` 64–140): raw sums,
then the combined size×scope complexity multiplier applied to BOTH labor
hours and material cost; `none` models the early return on an unknown size
or scope key. -/
def calculate_sample_estimate (template : Template) (kitchen_size scope : String) :
    Option EstimateTotals :=
  match template.kitchen_size.lookup kitchen_size,
        template.renovation_scope.lookup scope with
  | some size_factor, some scope_factor =>
    let included_phases := includedPhasesSample template.phases scope_factor
    let total_labor_hours :=
      (included_phases.map (fun ph => (ph.tasks.map (fun t => t.labor_hours.getD 0)).sum)).sum
    let total_material_cost :=
      (included_phases.map (fun ph => (ph.materials.map materialCost).sum)).sum
    let complexity_multiplier :=
      size_factor.complexity_multiplier.getD 1 * scope_factor.complexity_multiplier.getD 1
    let adjusted_labor_hours := total_labor_hours * complexity_multiplier
    let adjusted_material_cost := total_material_cost * complexity_multiplier
    let typical_rate := template.labor_rates.typical "skilled"
    let total_labor_cost := adjusted_labor_hours * typical_rate
    some { labor_hours := adjusted_labor_hours
           labor_cost := total_labor_cost
           material_cost := adjusted_material_cost
           total_cost := total_labor_cost + adjusted_material_cost }
  | _, _ => none

/-! Section: `example_usage.py` — `EstimateGenerator.generate_estimate` (lines 57–161) -/

/-- A line item emitted by `_process_phase`: a labor row or a material row. -/
inductive LineItem where
  | labor (phase description : String) (hours rate total_cost : ℚ)
  | material (phase description : String) (quantity : ℚ) (unit : String)
      (unit_cost waste_factor total_cost : ℚ)
  deriving DecidableEq, Repr

/-- Reads the hours of a labor line item; material items contribute nothing
to the labor branch of the accumulation loop. -/
def itemLaborHours : LineItem → ℚ
  | .labor _ _ hours _ _ => hours
  | .material .. => 0

/-- Reads the total_cost of a material line item; labor items contribute
nothing to the material branch of the accumulation loop. -/
def itemMaterialCost : LineItem → ℚ
  | .labor .. => 0
  | .material _ _ _ _ _ _ total_cost => total_cost

/-- Embeds `EstimateGenerator._process_phase` (`example_usage.py` 129–161):
labor line items for the tasks of the phase followed by material line items
for its materials. -/
def process_phase (labor_rates : LaborRates) (phase : Phase) : List LineItem :=
  (phase.tasks.map fun t =>
    LineItem.labor phase.phase_name t.task (t.labor_hours.getD 0)
      (labor_rates.typical (t.hourly_rate_category.getD "skilled"))
      (t.labor_hours.getD 0 * labor_rates.typical (t.hourly_rate_category.getD "skilled")))
  ++ (phase.materials.map fun m =>
    LineItem.material phase.phase_name m.item (m.quantity.getD 0) (m.unit.getD "each")
      (m.unit_cost_base.getD 0) (m.waste_factor.getD 0) (materialCost m))

/-- Body of `EstimateGenerator.generate_estimate` after parameter parsing
(`example_usage.py` 70–127): resolve the three factors (direct dict
indexing, so `none` models a `KeyError` on an unknown key or a factor
without `complexity_multiplier`), build line items, accumulate raw labor
hours and raw material cost, then apply the size×scope complexity
multiplier to labor hours only and the `material_multiplier` of the quality
tier to materials only. -/
def generate_estimate_core (template : Template) (kitchen_size scope quality_tier : String) :
    Option (List LineItem × EstimateTotals) :=
  match template.kitchen_size.lookup kitchen_size,
        template.renovation_scope.lookup scope,
        template.quality_tiers.lookup quality_tier with
  | some size_factor, some scope_factor, some quality_factor =>
    match size_factor.complexity_multiplier, scope_factor.complexity_multiplier with
    | some size_cm, some scope_cm =>
      let included_phases := includedPhasesGen template.phases scope_factor
      let line_items := (included_phases.map (process_phase template.labor_rates)).flatten
      let total_labor_hours := (line_items.map itemLaborHours).sum
      let total_material_cost := (line_items.map itemMaterialCost).sum
      let complexity := size_cm * scope_cm
      let adjusted_hours := total_labor_hours * complexity
      let adjusted_materials := total_material_cost * quality_factor.material_multiplier
      let labor_rate := template.labor_rates.typical "skilled"
      let labor_cost := adjusted_hours * labor_rate
      some (line_items,
        { labor_hours := adjusted_hours
          labor_cost := labor_cost
          material_cost := adjusted_materials
          total_cost := labor_cost + adjusted_materials })
    | _, _ => none
  | _, _, _ => none

/-- Embeds `EstimateGenerator.generate_estimate` (`example_usage.py` 57–127): parse
the natural-language input, then run the calculation on the parsed
parameters. -/
def generate_estimate (template : Template) (natural_language_input : String) :
    Option (List LineItem × EstimateTotals) :=
  let params := parse_natural_language natural_language_input
  generate_estimate_core template params.kitchen_size params.scope params.quality_tier

/-! Section: `validate_template.py` — structure validation (lines 20–62)

A raw template document is modelled by the list of its top-level keys, and
each raw phase document by the list of its keys: the validators only test
key membership. -/

/-- The `required_fields` list of `validate_template_structure`
(`validate_template.py` 22–25). -/
def required_fields : List String :=
  ["job_id", "trade_category", "job_name", "description",
   "phases", "labor_rates", "sizing_factors"]

/-- The `missing_fields` list that `validate_template_structure` builds and
reports (`validate_template.py` 27–33): every required field not present. -/
def template_missing_fields (doc : List String) : List String :=
  required_fields.filter (fun f => !doc.contains f)

/-- Embeds `validate_template_structure` (`validate_template.py` 20–37): succeeds
iff no required field is missing. -/
def validate_template_structure (doc : List String) : Bool :=
  template_missing_fields doc = []

/-- The `required_phase_fields` list (`validate_template.py` 49). -/
def required_phase_fields : List String :=
  ["phase_id", "phase_name", "sequence", "tasks", "materials"]

/-- The `missing` list computed for one phase (`validate_template.py` 50). -/
def phaseMissing (p : List String) : List String :=
  required_phase_fields.filter (fun f => !p.contains f)

/-- The diagnostic `validate_phases` prints (`validate_template.py` 48–54):
the missing fields of the FIRST phase that has any, the loop returning
`False` there without examining later phases. -/
def firstPhaseDiagnostic : List (List String) → Option (List String)
  | [] => none
  | p :: ps => if phaseMissing p = [] then firstPhaseDiagnostic ps else some (phaseMissing p)

/-- Embeds `validate_phases` (`validate_template.py` 39–62): fails on an empty phase
list, else on the first phase with missing fields. -/
def validate_phases (phaseDocs : List (List String)) : Bool :=
  !phaseDocs.isEmpty && (firstPhaseDiagnostic phaseDocs).isNone

/-! Section: Spec-side cost formulas

Written from the words of the specification, to be compared with the code-side
entry points: “adjusted material cost = (sum over materials of quantity ×
unit_cost × (1+waste_factor)) × quality_material_multiplier” and “adjusted
labor cost = (sum of task hours) × size_complexity × scope_complexity ×
typical_labor_rate”. -/

/-- The raw material sum of the spec over a list of (included) phases. -/
def specMaterialSum (phases : List Phase) : ℚ :=
  ((phases.map Phase.materials).flatten.map materialCost).sum

/-- The raw labor-hour sum of the spec over a list of (included) phases. -/
def specLaborHours (phases : List Phase) : ℚ :=
  ((phases.map Phase.tasks).flatten.map (fun t => t.labor_hours.getD 0)).sum

/-! Section: Helper lemmas -/

theorem sum_map_zero {α : Type} (l : List α) : (l.map fun _ => (0 : ℚ)).sum = 0 := by
  induction l <;> simp [*]

theorem specMaterialSum_eq_phase_sums (phases : List Phase) :
    specMaterialSum phases =
      (phases.map (fun ph => (ph.materials.map materialCost).sum)).sum := by
  induction phases with
  | nil => simp [specMaterialSum]
  | cons ph rest ih => simp [specMaterialSum] at ih ⊢; simp [ih]

theorem specLaborHours_eq_phase_sums (phases : List Phase) :
    specLaborHours phases =
      (phases.map (fun ph => (ph.tasks.map (fun t => t.labor_hours.getD 0)).sum)).sum := by
  induction phases with
  | nil => simp [specLaborHours]
  | cons ph rest ih => simp [specLaborHours] at ih ⊢; simp [ih]

theorem process_phase_material_sum (lr : LaborRates) (ph : Phase) :
    ((process_phase lr ph).map itemMaterialCost).sum = (ph.materials.map materialCost).sum := by
  simp [process_phase, List.map_map, Function.comp_def, itemMaterialCost, sum_map_zero]

theorem process_phase_labor_sum (lr : LaborRates) (ph : Phase) :
    ((process_phase lr ph).map itemLaborHours).sum =
      (ph.tasks.map (fun t => t.labor_hours.getD 0)).sum := by
  simp [process_phase, List.map_map, Function.comp_def, itemLaborHours, sum_map_zero]

/-- The raw material cost `generate_estimate` accumulates over its line items
is the raw material sum of the spec. -/
theorem lineItems_material_sum (lr : LaborRates) (phases : List Phase) :
    (((phases.map (process_phase lr)).flatten).map itemMaterialCost).sum =
      specMaterialSum phases := by
  induction phases with
  | nil => simp [specMaterialSum]
  | cons ph rest ih =>
    simp only [List.map_cons, List.flatten_cons, List.map_append, List.sum_append, ih,
      process_phase_material_sum, specMaterialSum_eq_phase_sums, List.sum_cons]

/-- The raw labor hours `generate_estimate` accumulates over its line items
is the raw labor-hour sum of the spec. -/
theorem lineItems_labor_sum (lr : LaborRates) (phases : List Phase) :
    (((phases.map (process_phase lr)).flatten).map itemLaborHours).sum =
      specLaborHours phases := by
  induction phases with
  | nil => simp [specLaborHours]
  | cons ph rest ih =>
    simp only [List.map_cons, List.flatten_cons, List.map_append, List.sum_append, ih,
      process_phase_labor_sum, specLaborHours_eq_phase_sums, List.sum_cons]

theorem comp_material_sum (lr : LaborRates) (phases : List Phase) :
    (phases.map (List.sum ∘ List.map itemMaterialCost ∘ process_phase lr)).sum =
      specMaterialSum phases := by
  induction phases with
  | nil => simp [specMaterialSum]
  | cons ph rest ih =>
    simp only [List.map_cons, List.sum_cons, Function.comp_apply, ih,
      process_phase_material_sum, specMaterialSum_eq_phase_sums]

theorem comp_labor_sum (lr : LaborRates) (phases : List Phase) :
    (phases.map (List.sum ∘ List.map itemLaborHours ∘ process_phase lr)).sum =
      specLaborHours phases := by
  induction phases with
  | nil => simp [specLaborHours]
  | cons ph rest ih =>
    simp only [List.map_cons, List.sum_cons, Function.comp_apply, ih,
      process_phase_labor_sum, specLaborHours_eq_phase_sums]

/-- Characterization of `calculate_sample_estimate` on resolvable parameters:
labor hours and material cost are BOTH scaled by the combined size×scope
complexity multiplier; the quality tier does not enter (it is not even a
parameter). -/
theorem calculate_sample_estimate_eq (T : Template) (kitchen_size scope : String)
    (sf : SizeFactor) (scf : ScopeFactor)
    (hsz : T.kitchen_size.lookup kitchen_size = some sf)
    (hsc : T.renovation_scope.lookup scope = some scf) :
    calculate_sample_estimate T kitchen_size scope =
      some { labor_hours := specLaborHours (includedPhasesSample T.phases scf) *
               (sf.complexity_multiplier.getD 1 * scf.complexity_multiplier.getD 1)
             labor_cost := specLaborHours (includedPhasesSample T.phases scf) *
               (sf.complexity_multiplier.getD 1 * scf.complexity_multiplier.getD 1) *
               T.labor_rates.typical "skilled"
             material_cost := specMaterialSum (includedPhasesSample T.phases scf) *
               (sf.complexity_multiplier.getD 1 * scf.complexity_multiplier.getD 1)
             total_cost := specLaborHours (includedPhasesSample T.phases scf) *
               (sf.complexity_multiplier.getD 1 * scf.complexity_multiplier.getD 1) *
               T.labor_rates.typical "skilled" +
               specMaterialSum (includedPhasesSample T.phases scf) *
               (sf.complexity_multiplier.getD 1 * scf.complexity_multiplier.getD 1) } := by
  simp [calculate_sample_estimate, hsz, hsc, specLaborHours_eq_phase_sums,
    specMaterialSum_eq_phase_sums]

/-- Characterization of `generate_estimate_core` on resolvable parameters:
labor hours are scaled by the size×scope complexity multiplier, material
cost by the `material_multiplier` of the quality tier only. -/
theorem generate_estimate_core_eq (T : Template) (kitchen_size scope quality_tier : String)
    (sf : SizeFactor) (scf : ScopeFactor) (qf : QualityTier) (size_cm scope_cm : ℚ)
    (hsz : T.kitchen_size.lookup kitchen_size = some sf)
    (hsc : T.renovation_scope.lookup scope = some scf)
    (hq : T.quality_tiers.lookup quality_tier = some qf)
    (hscm : sf.complexity_multiplier = some size_cm)
    (hccm : scf.complexity_multiplier = some scope_cm) :
    generate_estimate_core T kitchen_size scope quality_tier =
      some (((includedPhasesGen T.phases scf).map (process_phase T.labor_rates)).flatten,
        { labor_hours := specLaborHours (includedPhasesGen T.phases scf) * (size_cm * scope_cm)
          labor_cost := specLaborHours (includedPhasesGen T.phases scf) * (size_cm * scope_cm) *
            T.labor_rates.typical "skilled"
          material_cost := specMaterialSum (includedPhasesGen T.phases scf) *
            qf.material_multiplier
          total_cost := specLaborHours (includedPhasesGen T.phases scf) * (size_cm * scope_cm) *
            T.labor_rates.typical "skilled" +
            specMaterialSum (includedPhasesGen T.phases scf) * qf.material_multiplier }) := by
  simp [generate_estimate_core, hsz, hsc, hq, hscm, hccm,
    comp_material_sum, comp_labor_sum]

/-! Section: A concrete template

A small template in the shape of the kitchen-renovation trade-library file,
used to exhibit the divergence between the two entry points. -/

/-- A demolition task of 10 labor hours. -/
def task0 : Task :=
  { task := "Remove existing cabinets", labor_hours := some 10,
    hourly_rate_category := some "skilled" }

/-- A material: 10 units at base cost 10 with no waste, raw cost 100. -/
def mat0 : Material :=
  { item := "Floor tile", quantity := some 10, unit := some "sqft",
    unit_cost_base := some 10, waste_factor := some 0 }

/-- The single phase of the concrete template. -/
def phase0 : Phase :=
  { phase_id := "demolition", phase_name := "Demolition", sequence := 1,
    tasks := [task0], materials := [mat0] }

/-- Concrete template: skilled typical rate 50, size `medium` with complexity
1, scope `standard` with complexity 2 and no phase restriction, quality
`mid_range` with material multiplier 1. -/
def T0 : Template :=
  { phases := [phase0]
    labor_rates := { typical := fun _ => 50 }
    kitchen_size := [("medium", { complexity_multiplier := some 1 })]
    renovation_scope := [("standard", { complexity_multiplier := some 2,
                                        phases_included := none })]
    quality_tiers := [("mid_range", { material_multiplier := 1 })] }

/-- Evaluation of `calculate_sample_estimate` on `T0`: materials are scaled
by the complexity multiplier 2. -/
theorem sample_on_T0 : calculate_sample_estimate T0 "medium" "standard" =
    some { labor_hours := 20, labor_cost := 1000, material_cost := 200, total_cost := 1200 } := by
  rw [calculate_sample_estimate_eq T0 "medium" "standard"
    { complexity_multiplier := some 1 }
    { complexity_multiplier := some 2, phases_included := none } rfl rfl]
  norm_num [specLaborHours, specMaterialSum, includedPhasesSample, T0, phase0, task0, mat0,
    materialCost]

/-- Evaluation of `generate_estimate_core` on `T0`: materials are scaled by
the quality multiplier 1 instead. -/
theorem gen_on_T0 : generate_estimate_core T0 "medium" "standard" "mid_range" =
    some ([.labor "Demolition" "Remove existing cabinets" 10 50 500,
           .material "Demolition" "Floor tile" 10 "sqft" 10 0 100],
          { labor_hours := 20, labor_cost := 1000, material_cost := 100, total_cost := 1100 }) := by
  rw [generate_estimate_core_eq T0 "medium" "standard" "mid_range"
    { complexity_multiplier := some 1 }
    { complexity_multiplier := some 2, phases_included := none }
    { material_multiplier := 1 } 1 2 rfl rfl rfl rfl rfl]
  norm_num [specLaborHours, specMaterialSum, includedPhasesGen, T0, phase0, task0, mat0,
    materialCost, process_phase]

/-! Section: Claim theorems -/

/-- C3, counterexample: classifying "Complete gut renovation of large luxury
kitchen with custom everything" does NOT yield the triple (xl,
gut_renovation, luxury) the claim states: the description contains the
keyword "large", and the `large` branch of the size rule is tested before
the `xl` branch. -/
theorem c3_counterexample :
    parse_natural_language
        "Complete gut renovation of large luxury kitchen with custom everything" ≠
      { kitchen_size := "xl", scope := "gut_renovation", quality_tier := "luxury" } := by
  decide

/-- C3, amended: classifying "Complete gut renovation of large luxury kitchen
with custom everything" yields size = large (the keyword "large" matches the
earlier `large` branch, so the `xl` branch matching "luxury" is never
reached), scope = gut_renovation (via "complete"/"gut") and quality = luxury
(via "luxury"/"custom"). -/
theorem c3_scenario2_classification :
    parse_natural_language
        "Complete gut renovation of large luxury kitchen with custom everything" =
      { kitchen_size := "large", scope := "gut_renovation", quality_tier := "luxury" } := by
  decide

/-- C4, counterexample: phase-level validation does NOT report the complete
set of missing phase fields.  With a first phase missing `phase_id` and a
second phase missing `phase_name`, the diagnostic `validate_phases` reports
is exactly the list with phase_id alone; the missing
`"phase_name"` is not listed. -/
theorem c4_counterexample :
    phaseMissing ["phase_id", "sequence", "tasks", "materials"] = ["phase_name"] ∧
    firstPhaseDiagnostic
        [["phase_name", "sequence", "tasks", "materials"],
         ["phase_id", "sequence", "tasks", "materials"]] = some ["phase_id"] ∧
    "phase_name" ∉
      (firstPhaseDiagnostic
        [["phase_name", "sequence", "tasks", "materials"],
         ["phase_id", "sequence", "tasks", "materials"]]).getD [] := by
  refine ⟨by decide, by decide, by decide⟩

/-- C4, amended: top-level validation reports the complete set of missing
required top-level fields — in particular a template document with every
required field except `labor_rates` reports exactly `["labor_rates"]` — and
phase-level validation reports the complete set of missing fields of the
FIRST phase that has any, but stops there, leaving missing fields of later
phases unreported. -/
theorem c4_missing_field_reporting :
    (∀ (doc : List String) (f : String),
        f ∈ template_missing_fields doc ↔ f ∈ required_fields ∧ f ∉ doc) ∧
    template_missing_fields
        ["job_id", "trade_category", "job_name", "description", "phases",
         "sizing_factors"] = ["labor_rates"] ∧
    (∀ (p : List String) (ps : List (List String)), phaseMissing p ≠ [] →
        firstPhaseDiagnostic (p :: ps) = some (phaseMissing p)) ∧
    (∀ (p : List String) (ps : List (List String)), phaseMissing p = [] →
        firstPhaseDiagnostic (p :: ps) = firstPhaseDiagnostic ps) := by
  refine ⟨?_, by decide, ?_, ?_⟩
  · intro doc f
    simp [template_missing_fields, List.mem_filter]
  · intro p ps h
    simp [firstPhaseDiagnostic, h]
  · intro p ps h
    simp [firstPhaseDiagnostic, h]

/-- C4 witness: a single phase document missing only `phase_id` is reported
as missing exactly `["phase_id"]`. -/
theorem c4_witness :
    firstPhaseDiagnostic [["phase_name", "sequence", "tasks", "materials"]] =
      some ["phase_id"] := by
  have h := c4_missing_field_reporting.2.2.1
    ["phase_name", "sequence", "tasks", "materials"] [] (by decide)
  simpa using h

/-- C5, counterexample: the `GET /services` response dict contains no
timestamp key at all, so not every response of an endpoint includes a
timestamp. -/
theorem c5_counterexample : "timestamp" ∉ services_response_fields := by
  decide

/-- C5, amended: the responses of `GET /`, `POST /sports/predict` (success),
`POST /crypto/predict` (success) and `GET /health` each include a
`timestamp` field recording the generation time (`datetime.now()` at
response-construction time, modelled by the `ts` parameter); the
`GET /services` response includes none. -/
theorem c5_timestamps :
    "timestamp" ∈ home_response_fields ∧
    "timestamp" ∈ sports_response_fields ∧
    "timestamp" ∈ crypto_response_fields ∧
    "timestamp" ∈ health_response_fields ∧
    (∀ (pyHash : String → ℤ) (sport team1 team2 ts : String),
        (process_sports_prediction pyHash sport team1 team2 ts).timestamp = ts) ∧
    (∀ (pyHash : String → ℤ) (coin timeframe ts : String),
        (process_crypto_prediction pyHash coin timeframe ts).timestamp = ts) := by
  exact ⟨by decide, by decide, by decide, by decide,
    fun _ _ _ _ _ => rfl, fun _ _ _ _ => rfl⟩

/-- C9: whatever integer the underlying hash function produces, the sports
confidence `75 + hash % 20` lies in 75..94 and the crypto confidence
70 + hash % 25 lies in 70..94 (the Python `%` with a positive divisor is
non-negative, like `Int.emod`). -/
theorem c9_confidence_bounds :
    (∀ (pyHash : String → ℤ) (sport team1 team2 ts : String),
        75 ≤ (process_sports_prediction pyHash sport team1 team2 ts).confidence ∧
        (process_sports_prediction pyHash sport team1 team2 ts).confidence ≤ 94) ∧
    (∀ (pyHash : String → ℤ) (coin timeframe ts : String),
        70 ≤ (process_crypto_prediction pyHash coin timeframe ts).confidence ∧
        (process_crypto_prediction pyHash coin timeframe ts).confidence ≤ 94) := by
  constructor
  · intro pyHash sport team1 team2 ts
    have h0 : 0 ≤ pyHash (team1 ++ team2) % 20 :=
      Int.emod_nonneg _ (by norm_num)
    have h1 : pyHash (team1 ++ team2) % 20 < 20 :=
      Int.emod_lt_of_pos _ (by norm_num)
    simp only [process_sports_prediction]
    omega
  · intro pyHash coin timeframe ts
    have h0 : 0 ≤ pyHash (coin ++ timeframe) % 25 :=
      Int.emod_nonneg _ (by norm_num)
    have h1 : pyHash (coin ++ timeframe) % 25 < 25 :=
      Int.emod_lt_of_pos _ (by norm_num)
    simp only [process_crypto_prediction]
    omega

/-- C10: for every input, the sports prediction text names team1 as the
winner, the betting recommendations favor team1, and neither depends on
team2 at all — no input produces a prediction in which team2 wins. -/
theorem c10_team1_always_wins :
    ∀ (pyHash : String → ℤ) (sport team1 team2 ts : String),
      (process_sports_prediction pyHash sport team1 team2 ts).prediction =
        pyTitle team1 ++ " wins by 3-7 points" ∧
      (process_sports_prediction pyHash sport team1 team2 ts).betting_recommendations =
        ["Take " ++ pyTitle team1 ++ " -3 to -7", "Consider Over on total points"] ∧
      (∀ team2' : String,
        (process_sports_prediction pyHash sport team1 team2 ts).prediction =
          (process_sports_prediction pyHash sport team1 team2' ts).prediction ∧
        (process_sports_prediction pyHash sport team1 team2 ts).betting_recommendations =
          (process_sports_prediction pyHash sport team1 team2' ts).betting_recommendations) :=
  fun _ _ _ _ _ => ⟨rfl, rfl, fun _ => ⟨rfl, rfl⟩⟩

theorem pyLower_eq_empty_iff (s : String) : pyLower s = "" ↔ s = "" := by
  cases s with
  | mk data =>
    cases data with
    | nil => exact ⟨fun _ => rfl, fun _ => rfl⟩
    | cons c cs =>
      constructor
      · intro h
        exact absurd (congrArg String.data h) (by simp [pyLower])
      · intro h
        exact absurd (congrArg String.data h) (by simp)

/-- C6: the sports predict route returns 400 with an error body whose
message reads Both team1 and team2 are required whenever `team1` or `team2`
is absent or empty (the data.get default is the empty string, which is falsy
in Python), and 200 with the fabricated prediction whenever both are
present and non-empty. -/
theorem c6_team_required (pyHash : String → ℤ) (ts : String) (req : SportsRequest) :
    ((req.team1 = none ∨ req.team1 = some "" ∨ req.team2 = none ∨ req.team2 = some "") →
      sports_predict pyHash ts req =
        (.errorBody "Both team1 and team2 are required", 400)) ∧
    (∀ team1 team2 : String, req.team1 = some team1 → req.team2 = some team2 →
      team1 ≠ "" → team2 ≠ "" →
      sports_predict pyHash ts req =
        (.predictionBody (process_sports_prediction pyHash (req.sport.getD "nfl")
          (pyLower team1) (pyLower team2) ts), 200)) := by
  constructor
  · intro h
    have hempty : pyLower (req.team1.getD "") = "" ∨ pyLower (req.team2.getD "") = "" := by
      rcases h with h | h | h | h
      · exact Or.inl (by rw [h]; rfl)
      · exact Or.inl (by rw [h]; rfl)
      · exact Or.inr (by rw [h]; rfl)
      · exact Or.inr (by rw [h]; rfl)
    simp only [sports_predict]
    rw [if_pos hempty]
  · intro team1 team2 h1 h2 hne1 hne2
    simp only [sports_predict, h1, h2, Option.getD_some]
    rw [if_neg]
    push_neg
    exact ⟨fun h => hne1 ((pyLower_eq_empty_iff team1).mp h),
           fun h => hne2 ((pyLower_eq_empty_iff team2).mp h)⟩

/-- C6 witness: Scenario 3 of the spec — a body whose team1 is the empty
string and whose team2 is Lakers — yields HTTP 400 with the exact error
body. -/
theorem c6_witness :
    sports_predict (fun _ => 0) "2024-01-01T00:00:00"
        { sport := none, team1 := some "", team2 := some "Lakers",
          app_id := none, user_id := none } =
      (.errorBody "Both team1 and team2 are required", 400) :=
  (c6_team_required (fun _ => 0) "2024-01-01T00:00:00"
    { sport := none, team1 := some "", team2 := some "Lakers",
      app_id := none, user_id := none }).1 (Or.inr (Or.inl rfl))

/-- C7: a description whose lowercased text contains none of the recognized
keywords classifies to the default triple (medium, standard, mid_range); and
on every description whatsoever each axis yields one of its finitely many
categorical values — the classifier has no failure case. -/
theorem c7_default_triple :
    (∀ s : String,
        (∀ w ∈ classifierKeywords, listContains (pyLower s).toList w.toList = false) →
        parse_natural_language s =
          { kitchen_size := "medium", scope := "standard", quality_tier := "mid_range" }) ∧
    (∀ s : String,
        (parse_natural_language s).kitchen_size ∈ ["small", "large", "xl", "medium"] ∧
        (parse_natural_language s).scope ∈ ["cosmetic", "gut_renovation", "standard"] ∧
        (parse_natural_language s).quality_tier ∈
          ["budget", "luxury", "high_end", "mid_range"]) := by
  constructor
  · intro s h
    have h' : ∀ w ∈ classifierKeywords, listContains (pyLower s).data w.data = false := h
    have key : ∀ ws : List String, (∀ w ∈ ws, w ∈ classifierKeywords) →
        anyKeyword (pyLower s).data ws = false := by
      intro ws hws
      simp only [anyKeyword, List.any_eq_false]
      intro w hw
      simp only [Bool.not_eq_true]
      exact h' w (hws w hw)
    have h1 := key ["small", "galley", "tiny"] (by decide)
    have h2 := key ["large", "big", "spacious"] (by decide)
    have h3 := key ["xl", "luxury", "massive"] (by decide)
    have h4 := key ["cosmetic", "refresh", "update", "paint", "reface"] (by decide)
    have h5 := key ["gut", "complete", "full", "tear down", "rebuild"] (by decide)
    have h6 := key ["budget", "cheap", "basic", "affordable"] (by decide)
    have h7 := key ["luxury", "high-end", "premium", "custom"] (by decide)
    have h8 := key ["high", "nice", "good quality"] (by decide)
    simp [parse_natural_language, h1, h2, h3, h4, h5, h6, h7, h8]
  · intro s
    refine ⟨?_, ?_, ?_⟩ <;> simp only [parse_natural_language] <;> split_ifs <;> simp

/-- C7 witness: "renovate my kitchen" contains none of the recognized
keywords and classifies to the default triple. -/
theorem c7_witness :
    (∀ w ∈ classifierKeywords,
        listContains (pyLower "renovate my kitchen").toList w.toList = false) ∧
    parse_natural_language "renovate my kitchen" =
      { kitchen_size := "medium", scope := "standard", quality_tier := "mid_range" } :=
  ⟨by decide, c7_default_triple.1 "renovate my kitchen" (by decide)⟩

/-- C8: in both entry points, when `phases_included` is the string all or
absent (defaulting to all) every phase of the template is included in template
order; when it is a subset of identifiers, exactly the phases whose
`phase_id` belongs to the subset are included, preserving template order
(the selection is a sublist of the phase list of the template). -/
theorem c8_phase_selection (phases : List Phase) (scope_factor : ScopeFactor) :
    ((scope_factor.phases_included = none ∨ scope_factor.phases_included = some .all) →
      includedPhasesGen phases scope_factor = phases ∧
      includedPhasesSample phases scope_factor = phases) ∧
    (∀ ids : List String, scope_factor.phases_included = some (.subset ids) →
      includedPhasesGen phases scope_factor =
        phases.filter (fun p => ids.contains p.phase_id) ∧
      includedPhasesSample phases scope_factor = includedPhasesGen phases scope_factor ∧
      (includedPhasesGen phases scope_factor).Sublist phases ∧
      (∀ p : Phase, p ∈ includedPhasesGen phases scope_factor ↔
        p ∈ phases ∧ p.phase_id ∈ ids)) := by
  constructor
  · rintro (h | h) <;> simp [includedPhasesGen, includedPhasesSample, h]
  · intro ids h
    have hgen : includedPhasesGen phases scope_factor =
        phases.filter (fun p => ids.contains p.phase_id) := by
      simp [includedPhasesGen, h]
    have hsample : includedPhasesSample phases scope_factor =
        phases.filter (fun p => ids.contains p.phase_id) := by
      simp [includedPhasesSample, h]
    refine ⟨hgen, hsample.trans hgen.symm, ?_, ?_⟩
    · rw [hgen]
      exact List.filter_sublist phases
    · intro p
      rw [hgen]
      simp [List.mem_filter]

/-- C8 witness: on a one-phase template, a subset restriction to an
identifier the phase does not have filters the phase out, and the selection
is the corresponding filter of the phase list. -/
theorem c8_witness :
    includedPhasesGen [phase0]
        { complexity_multiplier := some 1, phases_included := some (.subset ["other"]) } =
      [phase0].filter (fun p => (["other"] : List String).contains p.phase_id) ∧
    includedPhasesSample [phase0]
        { complexity_multiplier := some 1, phases_included := some (.subset ["other"]) } =
      includedPhasesGen [phase0]
        { complexity_multiplier := some 1, phases_included := some (.subset ["other"]) } ∧
    (includedPhasesGen [phase0]
        { complexity_multiplier := some 1,
          phases_included := some (.subset ["other"]) }).Sublist [phase0] := by
  have h := (c8_phase_selection [phase0]
    { complexity_multiplier := some 1, phases_included := some (.subset ["other"]) }).2
    ["other"] rfl
  exact ⟨h.1, h.2.1, h.2.2.1⟩

/-- C1: the two estimate entry points apply the multipliers to material
costs inconsistently.  `calculate_sample_estimate` returns the raw material
sum times the size×scope complexity multiplier (the quality multiplier
cannot enter: quality is not even a parameter); `generate_estimate` returns
the raw material sum times the `material_multiplier` of the quality tier and
never the complexity multiplier; and on the concrete template `T0` with the
same valid parameters (medium, standard, mid_range) the two entry points
return different material costs (200 vs 100) and total costs (1200 vs
1100). -/
theorem c1_material_multiplier_inconsistency :
    (∀ (T : Template) (kitchen_size scope : String) (sf : SizeFactor) (scf : ScopeFactor),
        T.kitchen_size.lookup kitchen_size = some sf →
        T.renovation_scope.lookup scope = some scf →
        (calculate_sample_estimate T kitchen_size scope).map EstimateTotals.material_cost =
          some (specMaterialSum (includedPhasesSample T.phases scf) *
            (sf.complexity_multiplier.getD 1 * scf.complexity_multiplier.getD 1))) ∧
    (∀ (T : Template) (kitchen_size scope quality_tier : String) (sf : SizeFactor)
        (scf : ScopeFactor) (qf : QualityTier) (size_cm scope_cm : ℚ),
        T.kitchen_size.lookup kitchen_size = some sf →
        T.renovation_scope.lookup scope = some scf →
        T.quality_tiers.lookup quality_tier = some qf →
        sf.complexity_multiplier = some size_cm →
        scf.complexity_multiplier = some scope_cm →
        (generate_estimate_core T kitchen_size scope quality_tier).map
            (fun r => r.2.material_cost) =
          some (specMaterialSum (includedPhasesGen T.phases scf) * qf.material_multiplier)) ∧
    ((calculate_sample_estimate T0 "medium" "standard").map EstimateTotals.material_cost =
        some 200 ∧
      (generate_estimate_core T0 "medium" "standard" "mid_range").map
          (fun r => r.2.material_cost) = some 100 ∧
      (calculate_sample_estimate T0 "medium" "standard").map EstimateTotals.total_cost =
        some 1200 ∧
      (generate_estimate_core T0 "medium" "standard" "mid_range").map
          (fun r => r.2.total_cost) = some 1100 ∧
      (200 : ℚ) ≠ 100 ∧ (1200 : ℚ) ≠ 1100) := by
  refine ⟨?_, ?_, ?_, ?_, ?_, ?_, by norm_num, by norm_num⟩
  · intro T kitchen_size scope sf scf hsz hsc
    rw [calculate_sample_estimate_eq T kitchen_size scope sf scf hsz hsc]
    rfl
  · intro T kitchen_size scope quality_tier sf scf qf size_cm scope_cm hsz hsc hq hscm hccm
    rw [generate_estimate_core_eq T kitchen_size scope quality_tier sf scf qf size_cm scope_cm
      hsz hsc hq hscm hccm]
    rfl
  · rw [sample_on_T0]; rfl
  · rw [gen_on_T0]; rfl
  · rw [sample_on_T0]; rfl
  · rw [gen_on_T0]; rfl

/-- C1 witness: the first conjunct applied to `T0` at (medium, standard),
with its resolved factors, evaluated. -/
theorem c1_witness :
    (calculate_sample_estimate T0 "medium" "standard").map EstimateTotals.material_cost =
      some 200 := by
  rw [c1_material_multiplier_inconsistency.1 T0 "medium" "standard"
    { complexity_multiplier := some 1 }
    { complexity_multiplier := some 2, phases_included := none } rfl rfl]
  norm_num [specMaterialSum, includedPhasesSample, T0, phase0, mat0, materialCost]

/-- C2, counterexample: the claimed invariant — material cost = raw material
sum × quality material_multiplier in BOTH entry points — fails for
`calculate_sample_estimate` on `T0` at the valid parameters (medium,
standard, mid_range): the raw material sum is 100 and the mid_range
material multiplier is 1, so the claim prescribes material cost 100, but
the entry point returns 200 (raw sum × complexity multiplier 2). -/
theorem c2_counterexample :
    T0.quality_tiers.lookup "mid_range" = some { material_multiplier := 1 } ∧
    T0.renovation_scope.lookup "standard" =
      some { complexity_multiplier := some 2, phases_included := none } ∧
    specMaterialSum (includedPhasesSample T0.phases
        { complexity_multiplier := some 2, phases_included := none }) * (1 : ℚ) = 100 ∧
    (calculate_sample_estimate T0 "medium" "standard").map EstimateTotals.material_cost =
      some 200 ∧
    (200 : ℚ) ≠ 100 := by
  refine ⟨rfl, rfl, ?_, ?_, by norm_num⟩
  · norm_num [specMaterialSum, includedPhasesSample, T0, phase0, mat0, materialCost]
  · rw [sample_on_T0]; rfl

/-- C2, amended: for every template and resolvable parameters, in both entry
points total cost = adjusted labor cost + adjusted material cost with
adjusted labor cost = (sum of task labor_hours over included phases) ×
size complexity × scope complexity × labor_rates.skilled.typical; the
adjusted material cost is the raw material sum × the quality-tier
material_multiplier in `generate_estimate`, but the raw material sum × the
size×scope complexity multiplier in `calculate_sample_estimate` (which
takes no quality parameter). -/
theorem c2_total_cost_invariant :
    (∀ (T : Template) (kitchen_size scope : String) (sf : SizeFactor) (scf : ScopeFactor),
        T.kitchen_size.lookup kitchen_size = some sf →
        T.renovation_scope.lookup scope = some scf →
        calculate_sample_estimate T kitchen_size scope =
          some { labor_hours := specLaborHours (includedPhasesSample T.phases scf) *
                   (sf.complexity_multiplier.getD 1 * scf.complexity_multiplier.getD 1)
                 labor_cost := specLaborHours (includedPhasesSample T.phases scf) *
                   (sf.complexity_multiplier.getD 1 * scf.complexity_multiplier.getD 1) *
                   T.labor_rates.typical "skilled"
                 material_cost := specMaterialSum (includedPhasesSample T.phases scf) *
                   (sf.complexity_multiplier.getD 1 * scf.complexity_multiplier.getD 1)
                 total_cost := specLaborHours (includedPhasesSample T.phases scf) *
                   (sf.complexity_multiplier.getD 1 * scf.complexity_multiplier.getD 1) *
                   T.labor_rates.typical "skilled" +
                   specMaterialSum (includedPhasesSample T.phases scf) *
                   (sf.complexity_multiplier.getD 1 * scf.complexity_multiplier.getD 1) }) ∧
    (∀ (T : Template) (kitchen_size scope quality_tier : String) (sf : SizeFactor)
        (scf : ScopeFactor) (qf : QualityTier) (size_cm scope_cm : ℚ),
        T.kitchen_size.lookup kitchen_size = some sf →
        T.renovation_scope.lookup scope = some scf →
        T.quality_tiers.lookup quality_tier = some qf →
        sf.complexity_multiplier = some size_cm →
        scf.complexity_multiplier = some scope_cm →
        (generate_estimate_core T kitchen_size scope quality_tier).map Prod.snd =
          some { labor_hours := specLaborHours (includedPhasesGen T.phases scf) *
                   (size_cm * scope_cm)
                 labor_cost := specLaborHours (includedPhasesGen T.phases scf) *
                   (size_cm * scope_cm) * T.labor_rates.typical "skilled"
                 material_cost := specMaterialSum (includedPhasesGen T.phases scf) *
                   qf.material_multiplier
                 total_cost := specLaborHours (includedPhasesGen T.phases scf) *
                   (size_cm * scope_cm) * T.labor_rates.typical "skilled" +
                   specMaterialSum (includedPhasesGen T.phases scf) *
                   qf.material_multiplier }) := by
  constructor
  · intro T kitchen_size scope sf scf hsz hsc
    exact calculate_sample_estimate_eq T kitchen_size scope sf scf hsz hsc
  · intro T kitchen_size scope quality_tier sf scf qf size_cm scope_cm hsz hsc hq hscm hccm
    rw [generate_estimate_core_eq T kitchen_size scope quality_tier sf scf qf size_cm scope_cm
      hsz hsc hq hscm hccm]
    rfl

/-- C2 witness: the second conjunct of the amended invariant applied to `T0` at
(medium, standard, mid_range), evaluated: total 1100 = labor 1000 +
materials 100. -/
theorem c2_witness :
    (generate_estimate_core T0 "medium" "standard" "mid_range").map Prod.snd =
      some { labor_hours := 20, labor_cost := 1000, material_cost := 100,
             total_cost := 1100 } := by
  rw [c2_total_cost_invariant.2 T0 "medium" "standard" "mid_range"
    { complexity_multiplier := some 1 }
    { complexity_multiplier := some 2, phases_included := none }
    { material_multiplier := 1 } 1 2 rfl rfl rfl rfl rfl]
  norm_num [specLaborHours, specMaterialSum, includedPhasesGen, T0, phase0, task0, mat0,
    materialCost]

end FireAPI
